import Mathlib

/-
Formal model of the weather application controllers
(source: source/controller/DES, source/controller/User, source/User).

Python dict records are modelled by a single structure carrying every field
used by any table or CSV file; fields absent from a given dict keep their
default value.  Commands sent to the remote JSNDrop record store are
modelled as an explicit trace of JsnCmd values, and the effect of the
write commands on the store is given by applyCmd.  Fallible I/O steps
(pandas reads, HTTP responses) enter each function as Except-typed
parameters; a Python exception at such a step is the .error case, and the
try/except blocks of the source are modelled by matching on it.
Floating point temperatures and timestamps are modelled by Int.
-/

/-- Row models one row (a Python dict) of any JSNDrop table or CSV file. -/
structure Row where
  city : String := ""
  country : String := ""
  month : String := ""
  temperature : Int := 0
  year : Int := 0
  timestamp : String := ""
  PersonID : String := ""
  Password : String := ""
  Status : String := ""
  Message : String := ""
  Time : Int := 0
deriving DecidableEq, Inhabited

/-- JsnResponse models the parsed JSON body returned by the record store:
the code reads the keys JsnMsg and Msg of response.json(). -/
structure JsnResponse where
  JsnMsg : String
  Msg : List Row := []
deriving DecidableEq, Inhabited

/-- JsnCmd models one command dictionary sent to the record store
(the value of the cmd key in the request token). -/
inductive JsnCmd where
  | create (table : String) (schema : Row)
  | drop (table : String)
  | store (table : String) (value : List Row)
  | select (table : String) (whereClause : String)
  | all (table : String)
deriving DecidableEq

/-- JsnCmd.verb is the JSON key under which the table name is sent,
exactly as it appears in the source dictionaries. -/
def JsnCmd.verb : JsnCmd → String
  | .create _ _ => "CREATE"
  | .drop _ => "DROP"
  | .store _ _ => "STORE"
  | .select _ _ => "SELECT"
  | .all _ => "ALL"

/-- JsnCmd.tableOf is the table a command is addressed to. -/
def JsnCmd.tableOf : JsnCmd → String
  | .create t _ => t
  | .drop t => t
  | .store t _ => t
  | .select t _ => t
  | .all t => t

/-- Tables is the state of the remote store: each table name maps to its
current list of rows, or none when the table does not exist. -/
def Tables : Type := String → Option (List Row)

/-- setTable updates the state of one named table. -/
def setTable (st : Tables) (t : String) (v : Option (List Row)) : Tables :=
  fun u => if u = t then v else st u

/-- Modelled from the spec: the remote record store is an external
collaborator offering CREATE/DROP/STORE/SELECT/ALL over named tables.
CREATE leaves an existing table unchanged (the chat controller relies on
create keeping history) and otherwise makes an empty table, DROP removes
the table, STORE appends the stored rows to the table (creating it from
empty contents when absent), and the read commands do not change state. -/
def applyCmd (st : Tables) : JsnCmd → Tables
  | .create t _ => setTable st t (some ((st t).getD []))
  | .drop t => setTable st t none
  | .store t v => setTable st t (some ((st t).getD [] ++ v))
  | .select _ _ => st
  | .all _ => st

/-- runCmds applies a trace of commands to the store state in order. -/
def runCmds (st : Tables) (cs : List JsnCmd) : Tables :=
  cs.foldl applyCmd st

/-- month_order is the fixed month list used by all three sorting sites. -/
def month_order : List String :=
  ["Jan", "Feb", "Mar", "Apr", "May", "Jun",
   "Jul", "Aug", "Sep", "Oct", "Nov", "Dec"]

/-- monthIdx models month_order.index(m) on months known to be present. -/
def monthIdx (m : String) : Nat := month_order.indexOf m

/-- monthsValid holds when every month field occurs in month_order; when it
fails, the Python index call raises ValueError, which the enclosing
try/except converts to the sentinel return. -/
def monthsValid (rs : List Row) : Bool :=
  rs.all (fun r => month_order.contains r.month)

/-- monthLe compares rows by the calendar position of their month field. -/
def monthLe (a b : Row) : Prop := monthIdx a.month ≤ monthIdx b.month

instance : DecidableRel monthLe := fun _ _ => Nat.decLe _ _

instance : IsTotal Row monthLe := ⟨fun _ _ => Nat.le_total _ _⟩

instance : IsTrans Row monthLe := ⟨fun _ _ _ => Nat.le_trans⟩

/-- sortByMonth models sort_values on the month_order key column. -/
def sortByMonth (rs : List Row) : List Row := List.insertionSort monthLe rs

/-- digitVal gives the value of one decimal digit character. -/
def digitVal (c : Char) : Option Nat :=
  if c = '0' then some 0 else if c = '1' then some 1
  else if c = '2' then some 2 else if c = '3' then some 3
  else if c = '4' then some 4 else if c = '5' then some 5
  else if c = '6' then some 6 else if c = '7' then some 7
  else if c = '8' then some 8 else if c = '9' then some 9 else none

/-- digitsVal accumulates the value of a decimal digit run. -/
def digitsVal : List Char → Nat → Option Nat
  | [], acc => some acc
  | c :: cs, acc =>
    match digitVal c with
    | some d => digitsVal cs (acc * 10 + d)
    | none => none

/-- pyInt models the Python int() conversion of a decimal string, as the
source applies it to the year chosen in the dropdown; a string that is not
an optionally signed digit run raises ValueError, modelled by none. -/
def pyInt (s : String) : Option Int :=
  match s.toList with
  | [] => none
  | c :: cs =>
    if c = '-' then
      match cs with
      | [] => none
      | _ => (digitsVal cs 0).map (fun n => -(n : Int))
    else (digitsVal (c :: cs) 0).map (fun n => (n : Int))

namespace GetLocalData

/-- get_city_data (Get_local_data.py) returns the temperatures of one city
and year from the NZ weather CSV, sorted Jan to Dec.  fileData is none when
os.path.exists is false, some (.error e) when pandas raises while reading,
and some (.ok rows) on a successful read. -/
def get_city_data (fileData : Option (Except String (List Row)))
    (city year : String) : Option (List Int) :=
  match fileData with
  | none => none
  | some (.error _) => none
  | some (.ok df) =>
    match pyInt year with
    | none => none
    | some y =>
      let filtered := df.filter (fun r => r.city == city && r.year == y)
      if filtered.isEmpty then none
      else if monthsValid filtered then
        some ((sortByMonth filtered).map (fun r => r.temperature))
      else none

/-- accept (Get_local_data.py) handles the -LOCAL-DATA- event: it returns
the temperatures when get_city_data produced a truthy (nonempty) list. -/
def accept (event city year : String)
    (fileData : Option (Except String (List Row))) : Option (List Int) :=
  if event == "-LOCAL-DATA-" then
    match get_city_data fileData city year with
    | some temps => if temps.isEmpty then none else some temps
    | none => none
  else none

end GetLocalData

namespace JSNDropService

/-- table_name of the historical weather table (get_online_json_data.py). -/
def table_name : String := "weatherData"

/-- longA models the string of n copies of the letter A used in the CREATE
examples of the source. -/
def longA (n : Nat) : String := String.pushn "" 'A' n

/-- drop_table issues DROP weatherData. -/
def drop_table_cmd : JsnCmd := .drop table_name

/-- create_table issues CREATE weatherData with the example row of the
source (temperature 22.2 is modelled by the integer 22). -/
def create_table_cmd : JsnCmd :=
  .create table_name
    { city := longA 50, month := longA 50, temperature := 22, year := 2024 }

/-- store_data issues STORE weatherData with the given rows as VALUE. -/
def store_data_cmd (data : List Row) : JsnCmd := .store table_name data

/-- get_city_data issues SELECT weatherData with the WHERE clause built by
string interpolation of the chosen city and year (\x27 is the single
quote character of the source template). -/
def get_city_data_cmd (city year : String) : JsnCmd :=
  .select table_name
    ("city = \x27" ++ city ++ "\x27 AND year = " ++ year)

end JSNDropService

namespace GetOnlineJsonData

/-- upload_csv_to_jsondrop (get_online_json_data.py) reads WeatherData.csv
and uploads all its rows: DROP, CREATE, then STORE of the whole file.
csvData is the outcome of pd.read_csv; on a raised exception the except
block returns False, with no command issued (the read comes first).  The
source test for df being None is unreachable because pd.read_csv raises
rather than returning None, so it has no model branch. -/
def upload_csv_to_jsondrop (csvData : Except String (List Row)) :
    Bool × List JsnCmd :=
  match csvData with
  | .error _ => (false, [])
  | .ok df =>
    (true, [JSNDropService.drop_table_cmd, JSNDropService.create_table_cmd,
            JSNDropService.store_data_cmd df])

/-- get_city_year_data (get_online_json_data.py) selects one city and year
from the store and returns the temperatures sorted Jan to Dec.  selResp is
the response to the SELECT.  On an empty Msg the pandas DataFrame has no
columns and the month column access raises KeyError; on a month outside
month_order the index call raises ValueError; both are caught by the
except block, which returns None. -/
def get_city_year_data (selResp : Except String JsnResponse)
    (city year : String) : Option (List Int) × List JsnCmd :=
  let cmds := [JSNDropService.get_city_data_cmd city year]
  match selResp with
  | .error _ => (none, cmds)
  | .ok resp =>
    if resp.JsnMsg == "SUCCESS.SELECT" then
      if resp.Msg.isEmpty then (none, cmds)
      else if monthsValid resp.Msg then
        (some ((sortByMonth resp.Msg).map (fun r => r.temperature)), cmds)
      else (none, cmds)
    else (none, cmds)

/-- accept (get_online_json_data.py) handles -FETCH-JSON-: it first uploads
the CSV, returns None when the upload reports failure, and otherwise
fetches the chosen city and year, returning the temperatures when the
result is truthy (a nonempty list). -/
def accept (event city year : String) (csvData : Except String (List Row))
    (selResp : Except String JsnResponse) :
    Option (List Int) × List JsnCmd :=
  if event == "-FETCH-JSON-" then
    let up := upload_csv_to_jsondrop csvData
    if up.1 then
      let res := get_city_year_data selResp city year
      match res.1 with
      | some temps =>
        (if temps.isEmpty then none else some temps, up.2 ++ res.2)
      | none => (none, up.2 ++ res.2)
    else (none, up.2)
  else (none, [])

end GetOnlineJsonData

/-- tagCountry models the loops that set the country key of each record. -/
def tagCountry (c : String) (r : Row) : Row := { r with country := c }

namespace JSNDropMergeService

/-- weather_table holding the NZ data (merged_data.py). -/
def weather_table : String := "weatherData"

/-- merged_table holding both datasets (merged_data.py). -/
def merged_table : String := "mergedWeatherData"

/-- drop_merged_table issues DROP mergedWeatherData. -/
def drop_merged_table_cmd : JsnCmd := .drop merged_table

/-- create_merged_table issues CREATE mergedWeatherData with the example
row of the source. -/
def create_merged_table_cmd : JsnCmd :=
  .create merged_table
    { city := JSNDropService.longA 50, country := "New Zealand",
      month := JSNDropService.longA 50, temperature := 22, year := 2024 }

/-- get_nz_data issues ALL weatherData. -/
def get_nz_data_cmd : JsnCmd := .all weather_table

/-- store_merged_data issues STORE mergedWeatherData with the given rows. -/
def store_merged_data_cmd (data : List Row) : JsnCmd := .store merged_table data

/-- get_comparison_data issues SELECT mergedWeatherData with the WHERE
clause built by string interpolation of the two cities and the year. -/
def get_comparison_data_cmd (nz_city canadian_city year : String) : JsnCmd :=
  .select merged_table
    ("(city = \x27" ++ nz_city ++ "\x27 OR city = \x27" ++ canadian_city
      ++ "\x27) AND year = " ++ year)

end JSNDropMergeService

namespace MergedData

/-- create_merged_dataset (merged_data.py) drops and recreates the merged
table, reads the NZ rows with ALL, reads the Canadian CSV, tags each side
with its country, concatenates NZ then Canada, and stores the result.
nzResp is the response to the ALL command; canCsv is the outcome of
pd.read_csv on CanadianWeatherData.csv.  Any exception is caught by the
except block, which returns False. -/
def create_merged_dataset (nzResp : Except String JsnResponse)
    (canCsv : Except String (List Row)) : Bool × List JsnCmd :=
  let cmds0 := [JSNDropMergeService.drop_merged_table_cmd,
                JSNDropMergeService.create_merged_table_cmd,
                JSNDropMergeService.get_nz_data_cmd]
  match nzResp with
  | .error _ => (false, cmds0)
  | .ok resp =>
    if resp.JsnMsg == "SUCCESS.ALL" then
      let nz_records := resp.Msg.map (tagCountry "New Zealand")
      match canCsv with
      | .error _ => (false, cmds0)
      | .ok df =>
        if df.isEmpty then (false, cmds0)
        else
          let canadian_records := df.map (tagCountry "Canada")
          let all_records := nz_records ++ canadian_records
          (true, cmds0 ++ [JSNDropMergeService.store_merged_data_cmd all_records])
    else (false, cmds0)

/-- get_comparison_data (merged_data.py) selects two cities and a year from
the merged table, sorts the rows Jan to Dec, and splits the temperatures
by city.  The empty-Msg and invalid-month cases raise inside the try and
the except block returns the (None, None) pair, modelled by none. -/
def get_comparison_data (resp : Except String JsnResponse)
    (nz_city canadian_city year : String) :
    Option (List Int × List Int) × List JsnCmd :=
  let cmds := [JSNDropMergeService.get_comparison_data_cmd nz_city canadian_city year]
  match resp with
  | .error _ => (none, cmds)
  | .ok r =>
    if r.JsnMsg == "SUCCESS.SELECT" then
      if r.Msg.isEmpty then (none, cmds)
      else if monthsValid r.Msg then
        let sorted := sortByMonth r.Msg
        (some ((sorted.filter (fun x => x.city == nz_city)).map (fun x => x.temperature),
               (sorted.filter (fun x => x.city == canadian_city)).map (fun x => x.temperature)),
         cmds)
      else (none, cmds)
    else (none, cmds)

/-- accept (merged_data.py) handles -MERGE-DATA-: it rebuilds the merged
dataset, returns None when that fails, and otherwise returns the
comparison data when both temperature lists are truthy (nonempty). -/
def accept (event nz_city canadian_city year : String)
    (nzResp : Except String JsnResponse) (canCsv : Except String (List Row))
    (compResp : Except String JsnResponse) :
    Option (List Int × List Int) × List JsnCmd :=
  if event == "-MERGE-DATA-" then
    let m := create_merged_dataset nzResp canCsv
    if m.1 then
      let g := get_comparison_data compResp nz_city canadian_city year
      match g.1 with
      | some p =>
        (if p.1.isEmpty || p.2.isEmpty then none else some p, m.2 ++ g.2)
      | none => (none, m.2 ++ g.2)
    else (none, m.2)
  else (none, [])

end MergedData

namespace CurrentWeatherMergeService

/-- openweather_table holding the OpenWeather API data (current_weather_merge.py). -/
def openweather_table : String := "openweather"

/-- merged_table holding both current datasets (current_weather_merge.py). -/
def merged_table : String := "mergedcurrentdata"

/-- drop_merged_table issues DROP mergedcurrentdata. -/
def drop_merged_table_cmd : JsnCmd := .drop merged_table

/-- create_merged_table issues CREATE mergedcurrentdata with the example
row of the source (the timestamp string stands in for the example date). -/
def create_merged_table_cmd : JsnCmd :=
  .create merged_table
    { city := JSNDropService.longA 50, country := JSNDropService.longA 20,
      temperature := 22, timestamp := "2024-11-10 00:00:00" }

/-- get_nz_data issues SELECT openweather with the WHERE clause built by
string interpolation of the chosen city. -/
def get_nz_data_cmd (city : String) : JsnCmd :=
  .select openweather_table ("city = \x27" ++ city ++ "\x27")

/-- store_merged_data issues STORE mergedcurrentdata with the given rows. -/
def store_merged_data_cmd (data : List Row) : JsnCmd := .store merged_table data

end CurrentWeatherMergeService

namespace CurrentWeatherMerge

/-- get_canadian_data (current_weather_merge.py) reads the current Canadian
CSV, filters the chosen city, and rebuilds each row in the OpenWeather
format with country Canada; it returns None when the read raises or the
city has no rows. -/
def get_canadian_data (csvData : Except String (List Row)) (city : String) :
    Option (List Row) :=
  match csvData with
  | .error _ => none
  | .ok df =>
    let city_data := df.filter (fun r => r.city == city)
    if city_data.isEmpty then none
    else
      some (city_data.map (fun row =>
        { city := city, country := "Canada",
          temperature := row.temperature, timestamp := row.timestamp }))

/-- create_current_merged_dataset (current_weather_merge.py) drops and
recreates the merged current table, selects the NZ city from the
openweather table, tags the NZ rows with country New Zealand, reads the
Canadian rows, stores the concatenation NZ then Canada, and returns the
two temperature lists and the NZ time labels.  Any exception is caught by
the except block, which returns the (None, None, None) triple, modelled
by none. -/
def create_current_merged_dataset (nzResp : Except String JsnResponse)
    (canCsv : Except String (List Row)) (nz_city canadian_city : String) :
    Option (List Int × List Int × List String) × List JsnCmd :=
  let cmds0 := [CurrentWeatherMergeService.drop_merged_table_cmd,
                CurrentWeatherMergeService.create_merged_table_cmd,
                CurrentWeatherMergeService.get_nz_data_cmd nz_city]
  match nzResp with
  | .error _ => (none, cmds0)
  | .ok resp =>
    if resp.JsnMsg == "SUCCESS.SELECT" then
      let nz_records := resp.Msg.map (tagCountry "New Zealand")
      match get_canadian_data canCsv canadian_city with
      | none => (none, cmds0)
      | some canadian_records =>
        if canadian_records.isEmpty then (none, cmds0)
        else
          let nzca_records := nz_records ++ canadian_records
          let nz_temps := nz_records.map (fun r => r.temperature)
          let canadian_temps := canadian_records.map (fun r => r.temperature)
          let time_labels := nz_records.map (fun r => r.timestamp)
          (some (nz_temps, canadian_temps, time_labels),
           cmds0 ++ [CurrentWeatherMergeService.store_merged_data_cmd nzca_records])
    else (none, cmds0)

/-- accept (current_weather_merge.py) handles -MERGE-CURRENT-: it builds
the current merged dataset and returns the chart dictionary when the three
lists are truthy (nonempty). -/
def accept (event nz_city canadian_city : String)
    (nzResp : Except String JsnResponse) (canCsv : Except String (List Row)) :
    Option (String × String × List Int × List Int × List String) × List JsnCmd :=
  if event == "-MERGE-CURRENT-" then
    let m := create_current_merged_dataset nzResp canCsv nz_city canadian_city
    match m.1 with
    | some t =>
      (if t.1.isEmpty || t.2.1.isEmpty || t.2.2.isEmpty then none
       else some (nz_city, canadian_city, t.1, t.2.1, t.2.2), m.2)
    | none => (none, m.2)
  else (none, [])

end CurrentWeatherMerge

/-- ApiEntry models one forecast entry of the OpenWeather response: the
code reads entry main temp and entry dt_txt. -/
structure ApiEntry where
  main_temp : Int
  dt_txt : String
deriving DecidableEq, Inhabited

/-- ApiResponse models the parsed OpenWeather JSON body: the cod status
string and the forecast list. -/
structure ApiResponse where
  cod : String
  entries : List ApiEntry := []
deriving DecidableEq, Inhabited

namespace WeatherJSNDropService

/-- table_name of the OpenWeather data table (fetch_weather_button.py). -/
def table_name : String := "openweather"

/-- drop_table issues DROP openweather. -/
def drop_table_cmd : JsnCmd := .drop table_name

/-- create_table issues CREATE openweather with the example row. -/
def create_table_cmd : JsnCmd :=
  .create table_name
    { city := JSNDropService.longA 50, temperature := 22,
      timestamp := "2024-11-10 00:00:00" }

/-- store_data issues STORE openweather with the forecast rows. -/
def store_data_cmd (data : List Row) : JsnCmd := .store table_name data

/-- get_city_data issues SELECT openweather with the WHERE clause built by
string interpolation of the chosen city. -/
def get_city_data_cmd (city : String) : JsnCmd :=
  .select table_name ("city = \x27" ++ city ++ "\x27")

end WeatherJSNDropService

namespace FetchWeatherButton

/-- get_current_weather (fetch_weather_button.py) turns a successful
OpenWeather response (cod equal to the string 200) into the forecast rows
for the store and the temperature and time lists for the chart, all taken
in order from the first 8 forecast entries.  apiResp is the outcome of the
API call; an exception or a cod other than 200 yields the
(None, None, None) triple, modelled by none. -/
def get_current_weather (apiResp : Except String ApiResponse) (city : String) :
    Option (List Row × List Int × List String) :=
  match apiResp with
  | .error _ => none
  | .ok data =>
    if data.cod == "200" then
      let first8 := data.entries.take 8
      let forecast_data := first8.map (fun e =>
        { city := city, temperature := e.main_temp, timestamp := e.dt_txt })
      let temps := first8.map (fun e => e.main_temp)
      let times := first8.map (fun e => e.dt_txt)
      some (forecast_data, temps, times)
    else none

/-- accept (fetch_weather_button.py) handles -FETCH-WEATHER-: on truthy
forecast data it drops, recreates, and fills the openweather table; the
handler always returns keep_going true. -/
def accept (event city : String) (apiResp : Except String ApiResponse) :
    Bool × List JsnCmd :=
  if event == "-FETCH-WEATHER-" then
    match get_current_weather apiResp city with
    | some t =>
      if t.1.isEmpty || t.2.1.isEmpty || t.2.2.isEmpty then (true, [])
      else (true, [WeatherJSNDropService.drop_table_cmd,
                   WeatherJSNDropService.create_table_cmd,
                   WeatherJSNDropService.store_data_cmd t.1])
    | none => (true, [])
  else (true, [])

end FetchWeatherButton

/-- timeLe compares chat rows by their Time field. -/
def timeLe (a b : Row) : Prop := a.Time ≤ b.Time

instance : DecidableRel timeLe := fun _ _ => Int.decLe _ _

/-- sortByTime models the sorted call on the Time key in chat_button.py. -/
def sortByTime (rs : List Row) : List Row := List.insertionSort timeLe rs

namespace UserManagement

/-- Modelled from the spec: the jsnDrop client class used by
user_management.py lives in model/network/jsn_drop_service.py, which is
not under src; per the spec the record store is a key-value table service
with create/drop/select/store/all operations over named tables, and the
callers test the client status string for the substring DATA_ERROR, which
the service reports exactly when a select matches no rows.  This is the
status after select on tblUser for one PersonID. -/
def jsn_select_status (tblUser : List Row) (user_id : String) : String :=
  if (tblUser.filter (fun r => r.PersonID == user_id)).isEmpty then
    "DATA_ERROR : NO DATA FOUND" else "SUCCESS.SELECT"

/-- Modelled from the spec: store on tblUser, whose PersonID column is
declared as a primary key in user_management.py, replaces the row carrying
the same PersonID or appends a new row. -/
def jsn_store_user (tblUser : List Row) (row : Row) : List Row :=
  if tblUser.any (fun r => r.PersonID == row.PersonID) then
    tblUser.map (fun r => if r.PersonID == row.PersonID then row else r)
  else tblUser ++ [row]

/-- listPrefix decides whether the first character list is a prefix of
the second. -/
def listPrefix : List Char → List Char → Bool
  | [], _ => true
  | _ :: _, [] => false
  | a :: as, b :: bs => a == b && listPrefix as bs

/-- containsSub decides whether the pattern occurs inside the haystack. -/
def containsSub : List Char → List Char → Bool
  | [], pat => pat.isEmpty
  | h :: hs, pat => listPrefix pat (h :: hs) || containsSub hs pat

/-- hasDataError models the Python substring membership test for
DATA_ERROR in the client status string. -/
def hasDataError (status : String) : Bool :=
  containsSub status.toList "DATA_ERROR".toList

/-- register (user_management.py) looks the PersonID up in tblUser; when
the lookup reports DATA_ERROR it stores a new row with Status Registered
and answers Registration Success, and otherwise answers
User Already Exists without storing.  The result is the new table state,
the returned message, and the commands sent to the store. -/
def register (tblUser : List Row) (user_id password : String) :
    List Row × String × List JsnCmd :=
  let selCmd := JsnCmd.select "tblUser" ("PersonID = \x27" ++ user_id ++ "\x27")
  if hasDataError (jsn_select_status tblUser user_id) then
    let row : Row := { PersonID := user_id, Password := password, Status := "Registered" }
    (jsn_store_user tblUser row, "Registration Success",
     [selCmd, .store "tblUser" [row]])
  else (tblUser, "User Already Exists", [selCmd])

/-- init_cmds models the commands the UserManager constructor sends: the
jsnDrop create of tblUser and, through init_chat, of tblChatV2 (the
example rows stand in for the long example strings of the source). -/
def init_cmds : List JsnCmd :=
  [.create "tblUser" { PersonID := JSNDropService.longA 50,
                       Password := JSNDropService.longA 50,
                       Status := "STATUS_STRING" },
   .create "tblChatV2" { PersonID := JSNDropService.longA 50,
                         Message := JSNDropService.longA 50,
                         Time := 0 }]

end UserManagement

namespace ChatJSNDropService

/-- des1_table is the chat table of the current condition screen. -/
def des1_table : String := "tblChat_DES1"

/-- des2_table is the chat table of the historical data screen. -/
def des2_table : String := "tblChat_DES2"

/-- des3_table is the chat table of the yearly comparison screen. -/
def des3_table : String := "tblChat_DES3"

/-- create_chat_table issues CREATE for the given chat table with the
example row of the source. -/
def create_chat_table_cmd (table_name : String) : JsnCmd :=
  .create table_name
    { PersonID := JSNDropService.longA 50, Message := JSNDropService.longA 500,
      Time := 0 }

/-- store_message issues STORE for the given chat table with the single
message row as VALUE. -/
def store_message_cmd (table_name person_id message : String) (timeNow : Int) :
    JsnCmd :=
  .store table_name [{ PersonID := person_id, Message := message, Time := timeNow }]

/-- get_chat_history issues ALL for the given chat table. -/
def get_chat_history_cmd (table_name : String) : JsnCmd := .all table_name

end ChatJSNDropService

/-- pyStrip models the Python strip() call: it removes leading and
trailing whitespace characters. -/
def pyStrip (s : String) : String :=
  String.mk (((s.toList.dropWhile Char.isWhitespace).reverse.dropWhile
    Char.isWhitespace).reverse)

namespace ChatButton

/-- pad2 prints a number on at least two digits, as strftime does. -/
def pad2 (n : Int) : String := if n < 10 then "0" ++ toString n else toString n

/-- formatHMS models strftime with the hour, minute, second format applied
to datetime.fromtimestamp of the stored Time (read in UTC; Time is
modelled as whole seconds). -/
def formatHMS (t : Int) : String :=
  let s := t % 86400
  pad2 (s / 3600) ++ ":" ++ pad2 ((s % 3600) / 60) ++ ":" ++ pad2 (s % 60)

/-- render_chat builds the chat text shown in the multiline element: the
messages sorted by Time, each formatted as time, sender, and message. -/
def render_chat (msgs : List Row) : String :=
  (sortByTime msgs).foldl
    (fun acc m =>
      acc ++ "[" ++ formatHMS m.Time ++ "] " ++ m.PersonID ++ ": " ++ m.Message ++ "\n")
    ""

/-- table_for picks the chat table from the current screen exactly as the
if/elif/else of chat_button.py does: anything other than DES1 and DES2,
including an unset screen, falls to the DES3 table. -/
def table_for (screen : Option String) : String :=
  if screen == some "DES1" then ChatJSNDropService.des1_table
  else if screen == some "DES2" then ChatJSNDropService.des2_table
  else ChatJSNDropService.des3_table

/-- accept (chat_button.py) handles the Send event.  A message that is
empty after strip returns keep_going immediately, before any service
object is built.  Otherwise the handler creates the screen chat table,
stores the message, reads the full history of that table with ALL, and on
a SUCCESS.ALL response replaces the display with the rendered history.
histResp is the response to the ALL command; its .error case models an
exception caught by the outer try.  The result is keep_going, the command
trace (the UserManager constructor first sends its two creates), and the
final content of the chat display. -/
def accept (event messageRaw : String) (screen : Option String)
    (current_user : String) (timeNow : Int)
    (histResp : Except String JsnResponse) (display : String) :
    Bool × List JsnCmd × String :=
  if event == "Send" then
    let message := pyStrip messageRaw
    if message == "" then (true, [], display)
    else
      let t := table_for screen
      let cmds := UserManagement.init_cmds ++
        [ChatJSNDropService.create_chat_table_cmd t,
         ChatJSNDropService.store_message_cmd t current_user message timeNow,
         ChatJSNDropService.get_chat_history_cmd t]
      match histResp with
      | .error _ => (true, cmds, display)
      | .ok resp =>
        if resp.JsnMsg == "SUCCESS.ALL" then (true, cmds, render_chat resp.Msg)
        else (true, cmds, display)
  else (true, [], display)

end ChatButton

theorem setTable_self (st : Tables) (t : String) (v : Option (List Row)) :
    setTable st t v t = v := by simp [setTable]

theorem setTable_other (st : Tables) (t : String) (v : Option (List Row))
    (u : String) (h : u ≠ t) : setTable st t v u = st u := by
  simp [setTable, h]

theorem runCmds_fresh_store (st : Tables) (t : String) (ex : Row)
    (mid : JsnCmd) (hmid : (∃ u w, mid = .select u w) ∨ ∃ u, mid = .all u)
    (v : List Row) :
    runCmds st [.drop t, .create t ex, mid, .store t v] t = some v := by
  have h1 : applyCmd st (.drop t) t = none := by
    simp [applyCmd, setTable]
  have h2 : applyCmd (applyCmd st (.drop t)) (.create t ex) t = some [] := by
    simp [applyCmd, setTable]
  have h3 : applyCmd (applyCmd (applyCmd st (.drop t)) (.create t ex)) mid
      = applyCmd (applyCmd st (.drop t)) (.create t ex) := by
    rcases hmid with ⟨u, w, h⟩ | ⟨u, h⟩ <;> simp [h, applyCmd]
  simp [runCmds, List.foldl, h3]
  simp [applyCmd, setTable, h2]

/-- c1nzRow is a sample NZ row for the C1 witness. -/
def c1nzRow : Row := { city := "Auckland", month := "Jan", temperature := 15, year := 2023 }

/-- c1caRow is a sample Canadian CSV row for the C1 witness. -/
def c1caRow : Row := { city := "Vancouver", month := "Jan", temperature := 5, year := 2023 }

/-- c1curRow is a sample openweather row for the C1 witness. -/
def c1curRow : Row := { city := "Auckland", temperature := 18, timestamp := "2024-11-10 00:00:00" }

/-- c1csvRow is a sample current Canadian CSV row for the C1 witness. -/
def c1csvRow : Row := { city := "Vancouver", temperature := 4, timestamp := "2024-11-10 00:00:00" }

/-- emptyTables is a store state with no tables. -/
def emptyTables : Tables := fun _ => none

/-- C1: when both sources yield records, the dataset stored in the merged
table by create_merged_dataset (historical) and by
create_current_merged_dataset (current) is exactly the New Zealand
records, each with country set to New Zealand, followed by the Canadian
records, each with country set to Canada, joined by plain list
concatenation with no record added, removed, or reordered. -/
theorem c1_merged_table_is_nz_then_canada
    (stH stC : Tables) (resp respC : JsnResponse)
    (canCsv canRecs : List Row) (nz_city canadian_city : String)
    (canCsvC : Except String (List Row))
    (h1 : resp.JsnMsg = "SUCCESS.ALL") (_h2 : resp.Msg ≠ [])
    (h3 : canCsv ≠ [])
    (h4 : respC.JsnMsg = "SUCCESS.SELECT") (_h5 : respC.Msg ≠ [])
    (h6 : CurrentWeatherMerge.get_canadian_data canCsvC canadian_city = some canRecs) :
    (MergedData.create_merged_dataset (.ok resp) (.ok canCsv)).1 = true ∧
    runCmds stH (MergedData.create_merged_dataset (.ok resp) (.ok canCsv)).2
        JSNDropMergeService.merged_table
      = some (resp.Msg.map (tagCountry "New Zealand")
              ++ canCsv.map (tagCountry "Canada")) ∧
    (CurrentWeatherMerge.create_current_merged_dataset (.ok respC) canCsvC
        nz_city canadian_city).1.isSome = true ∧
    runCmds stC (CurrentWeatherMerge.create_current_merged_dataset (.ok respC)
        canCsvC nz_city canadian_city).2 CurrentWeatherMergeService.merged_table
      = some (respC.Msg.map (tagCountry "New Zealand") ++ canRecs) := by
  have hce : canCsv.isEmpty = false := by
    cases canCsv with
    | nil => exact absurd rfl h3
    | cons c cs => rfl
  have hcr : canRecs.isEmpty = false := by
    cases hcsv : canCsvC with
    | error e => rw [hcsv] at h6; simp [CurrentWeatherMerge.get_canadian_data] at h6
    | ok df =>
      rw [hcsv] at h6
      by_cases hfe : (df.filter (fun r => r.city == canadian_city)).isEmpty
      · simp [CurrentWeatherMerge.get_canadian_data, hfe] at h6
      · simp [CurrentWeatherMerge.get_canadian_data, hfe] at h6
        cases hfil : df.filter (fun r => r.city == canadian_city) with
        | nil => rw [hfil] at hfe; exact absurd rfl hfe
        | cons a l =>
          rw [hfil] at h6
          rw [← h6]
          rfl
  have hm : MergedData.create_merged_dataset (.ok resp) (.ok canCsv)
      = (true, [JSNDropMergeService.drop_merged_table_cmd,
                JSNDropMergeService.create_merged_table_cmd,
                JSNDropMergeService.get_nz_data_cmd,
                JSNDropMergeService.store_merged_data_cmd
                  (resp.Msg.map (tagCountry "New Zealand")
                    ++ canCsv.map (tagCountry "Canada"))]) := by
    simp [MergedData.create_merged_dataset, h1, hce]
  have hc : CurrentWeatherMerge.create_current_merged_dataset (.ok respC) canCsvC
        nz_city canadian_city
      = (some ((respC.Msg.map (tagCountry "New Zealand")).map (fun r => r.temperature),
               canRecs.map (fun r => r.temperature),
               (respC.Msg.map (tagCountry "New Zealand")).map (fun r => r.timestamp)),
         [CurrentWeatherMergeService.drop_merged_table_cmd,
          CurrentWeatherMergeService.create_merged_table_cmd,
          CurrentWeatherMergeService.get_nz_data_cmd nz_city,
          CurrentWeatherMergeService.store_merged_data_cmd
            (respC.Msg.map (tagCountry "New Zealand") ++ canRecs)]) := by
    simp [CurrentWeatherMerge.create_current_merged_dataset, h4, h6, hcr]
  refine ⟨by rw [hm], ?_, by rw [hc]; rfl, ?_⟩
  · rw [hm]
    exact runCmds_fresh_store stH JSNDropMergeService.merged_table _ _
      (Or.inr ⟨JSNDropMergeService.weather_table, rfl⟩) _
  · rw [hc]
    exact runCmds_fresh_store stC CurrentWeatherMergeService.merged_table _ _
      (Or.inl ⟨CurrentWeatherMergeService.openweather_table,
               "city = \x27" ++ nz_city ++ "\x27", rfl⟩) _

/-- c1canRec is the Canadian record get_canadian_data builds from c1csvRow. -/
def c1canRec : Row :=
  { city := "Vancouver", country := "Canada", temperature := 4,
    timestamp := "2024-11-10 00:00:00" }

theorem c1_merged_table_is_nz_then_canada_witness :
    runCmds emptyTables (MergedData.create_merged_dataset
        (.ok ⟨"SUCCESS.ALL", [c1nzRow]⟩) (.ok [c1caRow])).2
      JSNDropMergeService.merged_table
    = some ([c1nzRow].map (tagCountry "New Zealand")
            ++ [c1caRow].map (tagCountry "Canada")) ∧
    runCmds emptyTables (CurrentWeatherMerge.create_current_merged_dataset
        (.ok ⟨"SUCCESS.SELECT", [c1curRow]⟩) (.ok [c1csvRow])
        "Auckland" "Vancouver").2
      CurrentWeatherMergeService.merged_table
    = some ([c1curRow].map (tagCountry "New Zealand") ++ [c1canRec]) := by
  have H := c1_merged_table_is_nz_then_canada emptyTables emptyTables
    ⟨"SUCCESS.ALL", [c1nzRow]⟩ ⟨"SUCCESS.SELECT", [c1curRow]⟩
    [c1caRow] [c1canRec] "Auckland" "Vancouver" (.ok [c1csvRow])
    rfl (by decide) (by decide) rfl (by decide) (by decide)
  exact ⟨H.2.1, H.2.2.2⟩

theorem sortByMonth_sorted (l : List Row) : List.Sorted monthLe (sortByMonth l) :=
  List.sorted_insertionSort monthLe l

theorem sortByMonth_perm (l : List Row) : (sortByMonth l).Perm l :=
  List.perm_insertionSort monthLe l

theorem sorted_filter (l : List Row) (p : Row → Bool)
    (h : List.Sorted monthLe l) : List.Sorted monthLe (l.filter p) :=
  List.Pairwise.sublist (List.filter_sublist l) h

/-- C2: for every city and year for which records are found, the
temperature lists returned by get_city_data (local CSV path),
get_city_year_data (remote-store path), and get_comparison_data are the
temperatures of the records sorted by calendar month Jan to Dec of each
record's month field, regardless of the order in which the records were
read or received. -/
theorem c2_temperatures_ordered_by_month
    (rows : List Row) (city year : String) (y : Int) (temps : List Int)
    (resp2 : JsnResponse) (city2 year2 : String) (temps2 : List Int)
    (cmds2 : List JsnCmd)
    (resp3 : JsnResponse) (nz_city canadian_city year3 : String)
    (pr : List Int × List Int) (cmds3 : List JsnCmd)
    (hy : pyInt year = some y)
    (hl : GetLocalData.get_city_data (some (.ok rows)) city year = some temps)
    (ho : GetOnlineJsonData.get_city_year_data (.ok resp2) city2 year2
            = (some temps2, cmds2))
    (hc : MergedData.get_comparison_data (.ok resp3) nz_city canadian_city year3
            = (some pr, cmds3)) :
    (temps = (sortByMonth (rows.filter (fun r => r.city == city && r.year == y))).map
        (fun r => r.temperature) ∧
     List.Sorted monthLe
       (sortByMonth (rows.filter (fun r => r.city == city && r.year == y))) ∧
     (sortByMonth (rows.filter (fun r => r.city == city && r.year == y))).Perm
       (rows.filter (fun r => r.city == city && r.year == y))) ∧
    (temps2 = (sortByMonth resp2.Msg).map (fun r => r.temperature) ∧
     List.Sorted monthLe (sortByMonth resp2.Msg) ∧
     (sortByMonth resp2.Msg).Perm resp2.Msg) ∧
    (pr.1 = ((sortByMonth resp3.Msg).filter (fun x => x.city == nz_city)).map
        (fun x => x.temperature) ∧
     pr.2 = ((sortByMonth resp3.Msg).filter (fun x => x.city == canadian_city)).map
        (fun x => x.temperature) ∧
     List.Sorted monthLe ((sortByMonth resp3.Msg).filter (fun x => x.city == nz_city)) ∧
     List.Sorted monthLe
       ((sortByMonth resp3.Msg).filter (fun x => x.city == canadian_city))) := by
  refine ⟨?_, ?_, ?_⟩
  · by_cases he : (rows.filter (fun r => r.city == city && r.year == y)).isEmpty
    · simp [GetLocalData.get_city_data, hy, he] at hl
    · by_cases hv : monthsValid (rows.filter (fun r => r.city == city && r.year == y))
      · simp [GetLocalData.get_city_data, hy, he, hv] at hl
        exact ⟨hl.symm, sortByMonth_sorted _, sortByMonth_perm _⟩
      · simp [GetLocalData.get_city_data, hy, he, hv] at hl
  · by_cases hj : resp2.JsnMsg = "SUCCESS.SELECT"
    · by_cases he : resp2.Msg.isEmpty
      · simp [GetOnlineJsonData.get_city_year_data, hj, he] at ho
      · by_cases hv : monthsValid resp2.Msg
        · simp [GetOnlineJsonData.get_city_year_data, hj, he, hv] at ho
          exact ⟨ho.1.symm, sortByMonth_sorted _, sortByMonth_perm _⟩
        · simp [GetOnlineJsonData.get_city_year_data, hj, he, hv] at ho
    · simp [GetOnlineJsonData.get_city_year_data, hj] at ho
  · by_cases hj : resp3.JsnMsg = "SUCCESS.SELECT"
    · by_cases he : resp3.Msg.isEmpty
      · simp [MergedData.get_comparison_data, hj, he] at hc
      · by_cases hv : monthsValid resp3.Msg
        · simp [MergedData.get_comparison_data, hj, he, hv] at hc
          refine ⟨?_, ?_, sorted_filter _ _ (sortByMonth_sorted _),
                  sorted_filter _ _ (sortByMonth_sorted _)⟩
          · rw [← hc.1]
          · rw [← hc.1]
        · simp [MergedData.get_comparison_data, hj, he, hv] at hc
    · simp [MergedData.get_comparison_data, hj] at hc

/-- c2rows is a two-row CSV sample, deliberately out of month order. -/
def c2rows : List Row :=
  [{ city := "Auckland", month := "Feb", temperature := 11, year := 2023 },
   { city := "Auckland", month := "Jan", temperature := 10, year := 2023 }]

/-- c2caRow is a Canadian merged-table row for the C2 witness. -/
def c2caRow : Row := { city := "Vancouver", month := "Feb", temperature := 3, year := 2023 }

/-- c2nzRow is an NZ merged-table row for the C2 witness. -/
def c2nzRow : Row := { city := "Auckland", month := "Jan", temperature := 10, year := 2023 }

theorem c2_temperatures_ordered_by_month_witness :
    ([(10:Int), 11]
        = (sortByMonth (c2rows.filter (fun r => r.city == "Auckland" && r.year == (2023:Int)))).map
            (fun r => r.temperature)) ∧
    List.Sorted monthLe
      (sortByMonth (c2rows.filter (fun r => r.city == "Auckland" && r.year == (2023:Int)))) ∧
    (sortByMonth (c2rows.filter (fun r => r.city == "Auckland" && r.year == (2023:Int)))).Perm
      (c2rows.filter (fun r => r.city == "Auckland" && r.year == (2023:Int))) :=
  (c2_temperatures_ordered_by_month c2rows "Auckland" "2023" 2023 [10, 11]
    ⟨"SUCCESS.SELECT", c2rows⟩ "Auckland" "2023" [10, 11]
    [JSNDropService.get_city_data_cmd "Auckland" "2023"]
    ⟨"SUCCESS.SELECT", [c2caRow, c2nzRow]⟩ "Auckland" "Vancouver" "2023"
    ([10], [3])
    [JSNDropMergeService.get_comparison_data_cmd "Auckland" "Vancouver" "2023"]
    (by decide) (by decide) (by decide) (by decide)).1

/-- C3: every exception raised inside a data-fetch or merge operation is
caught and turned into the fixed sentinel of that operation: None for
get_city_data, False for create_merged_dataset and upload_csv_to_jsondrop,
the (None, None, None) triple (modelled by none) for
create_current_merged_dataset and get_current_weather; since every
operation is a total function into its result type, no exception
propagates to the caller. -/
theorem c3_exceptions_return_sentinels :
    (∀ e city year, GetLocalData.get_city_data (some (.error e)) city year = none) ∧
    (∀ e, GetOnlineJsonData.upload_csv_to_jsondrop (.error e) = (false, [])) ∧
    (∀ e canCsv, (MergedData.create_merged_dataset (.error e) canCsv).1 = false) ∧
    (∀ nzResp e, (MergedData.create_merged_dataset nzResp (.error e)).1 = false) ∧
    (∀ e canCsv nz_city canadian_city,
      (CurrentWeatherMerge.create_current_merged_dataset (.error e) canCsv
        nz_city canadian_city).1 = none) ∧
    (∀ nzResp e nz_city canadian_city,
      (CurrentWeatherMerge.create_current_merged_dataset nzResp (.error e)
        nz_city canadian_city).1 = none) ∧
    (∀ e city, FetchWeatherButton.get_current_weather (.error e) city = none) := by
  refine ⟨fun e city year => rfl, fun e => rfl, fun e canCsv => rfl, ?_, 
          fun e canCsv nz ca => rfl, ?_, fun e city => rfl⟩
  · intro nzResp e
    cases nzResp with
    | error e2 => rfl
    | ok resp =>
      by_cases hj : resp.JsnMsg = "SUCCESS.ALL"
      · simp [MergedData.create_merged_dataset, hj]
      · simp [MergedData.create_merged_dataset, hj]
  · intro nzResp e nz_city canadian_city
    cases nzResp with
    | error e2 => rfl
    | ok resp =>
      by_cases hj : resp.JsnMsg = "SUCCESS.SELECT"
      · simp [CurrentWeatherMerge.create_current_merged_dataset, hj,
              CurrentWeatherMerge.get_canadian_data]
      · simp [CurrentWeatherMerge.create_current_merged_dataset, hj]

theorem runCmds_chat_self (st : Tables) (t : String) (exU exC exT row : Row)
    (h1 : t ≠ "tblUser") (h2 : t ≠ "tblChatV2") :
    runCmds st [JsnCmd.create "tblUser" exU, .create "tblChatV2" exC,
                .create t exT, .store t [row], .all t] t
      = some ((st t).getD [] ++ [row]) := by
  simp [runCmds, List.foldl, applyCmd, setTable, h1, h2]

theorem runCmds_chat_other (st : Tables) (t u : String) (exU exC exT row : Row)
    (hu : u ≠ t) (h1 : u ≠ "tblUser") (h2 : u ≠ "tblChatV2") :
    runCmds st [JsnCmd.create "tblUser" exU, .create "tblChatV2" exC,
                .create t exT, .store t [row], .all t] u
      = st u := by
  simp [runCmds, List.foldl, applyCmd, setTable, hu, h1, h2]

/-- C4: each DES screen has its own chat table (tblChat_DES1, tblChat_DES2,
tblChat_DES3); on a Send event the message is stored only in the table of
the current screen, the history shown afterwards is read (with ALL) from
that same table, and the chat tables of the other two screens keep exactly
their previous contents. -/
theorem c4_chat_tables_per_screen
    (st : Tables) (screen : Option String)
    (msgRaw current_user : String) (timeNow : Int)
    (histResp : Except String JsnResponse) (display : String)
    (hscreen : screen = some "DES1" ∨ screen = some "DES2" ∨ screen = some "DES3")
    (hmsg : pyStrip msgRaw ≠ "") :
    (ChatButton.table_for (some "DES1") = "tblChat_DES1" ∧
     ChatButton.table_for (some "DES2") = "tblChat_DES2" ∧
     ChatButton.table_for (some "DES3") = "tblChat_DES3") ∧
    (ChatButton.accept "Send" msgRaw screen current_user timeNow histResp display).2.1
      = UserManagement.init_cmds ++
        [ChatJSNDropService.create_chat_table_cmd (ChatButton.table_for screen),
         ChatJSNDropService.store_message_cmd (ChatButton.table_for screen)
           current_user (pyStrip msgRaw) timeNow,
         ChatJSNDropService.get_chat_history_cmd (ChatButton.table_for screen)] ∧
    runCmds st
      (ChatButton.accept "Send" msgRaw screen current_user timeNow histResp display).2.1
      (ChatButton.table_for screen)
      = some ((st (ChatButton.table_for screen)).getD []
              ++ [{ PersonID := current_user, Message := pyStrip msgRaw, Time := timeNow }]) ∧
    (∀ u, (u = "tblChat_DES1" ∨ u = "tblChat_DES2" ∨ u = "tblChat_DES3") →
      u ≠ ChatButton.table_for screen →
      runCmds st
        (ChatButton.accept "Send" msgRaw screen current_user timeNow histResp display).2.1
        u = st u) := by
  have hm2 : (pyStrip msgRaw == "") = false := by
    rwa [beq_eq_false_iff_ne]
  have htr : (ChatButton.accept "Send" msgRaw screen current_user timeNow
        histResp display).2.1
      = UserManagement.init_cmds ++
        [ChatJSNDropService.create_chat_table_cmd (ChatButton.table_for screen),
         ChatJSNDropService.store_message_cmd (ChatButton.table_for screen)
           current_user (pyStrip msgRaw) timeNow,
         ChatJSNDropService.get_chat_history_cmd (ChatButton.table_for screen)] := by
    cases histResp with
    | error e => simp [ChatButton.accept, hm2]
    | ok resp =>
      by_cases hj : resp.JsnMsg = "SUCCESS.ALL" <;>
        simp [ChatButton.accept, hm2, hj]
  refine ⟨⟨rfl, rfl, rfl⟩, htr, ?_, ?_⟩
  · rw [htr]
    rcases hscreen with h | h | h <;> rw [h] <;>
      exact runCmds_chat_self st _ _ _ _ _ (by decide) (by decide)
  · intro u hu hne
    rw [htr]
    rcases hscreen with h | h | h <;> rw [h] <;> rw [h] at hne <;>
      exact runCmds_chat_other st _ u _ _ _ _ hne
        (by rcases hu with h2 | h2 | h2 <;> rw [h2] <;> decide)
        (by rcases hu with h2 | h2 | h2 <;> rw [h2] <;> decide)

/-- c4oldRow is a pre-existing chat message for the C4 witness. -/
def c4oldRow : Row := { PersonID := "ann", Message := "old", Time := 5 }

/-- c4State is a store state where screens one and three already hold a
chat message and screen two has no table yet. -/
def c4State : Tables := fun u =>
  if u = "tblChat_DES1" then some [c4oldRow]
  else if u = "tblChat_DES3" then some [c4oldRow]
  else none

theorem c4_chat_tables_per_screen_witness :
    (ChatButton.accept "Send" " hi " (some "DES2") "bob" 100
        (.ok ⟨"SUCCESS.ALL", []⟩) "").2.1
      = UserManagement.init_cmds ++
        [ChatJSNDropService.create_chat_table_cmd "tblChat_DES2",
         ChatJSNDropService.store_message_cmd "tblChat_DES2" "bob" "hi" 100,
         ChatJSNDropService.get_chat_history_cmd "tblChat_DES2"] ∧
    runCmds c4State
      (ChatButton.accept "Send" " hi " (some "DES2") "bob" 100
        (.ok ⟨"SUCCESS.ALL", []⟩) "").2.1 "tblChat_DES2"
      = some [{ PersonID := "bob", Message := "hi", Time := 100 }] ∧
    runCmds c4State
      (ChatButton.accept "Send" " hi " (some "DES2") "bob" 100
        (.ok ⟨"SUCCESS.ALL", []⟩) "").2.1 "tblChat_DES1"
      = some [c4oldRow] := by
  have H := c4_chat_tables_per_screen c4State (some "DES2") " hi " "bob" 100
    (.ok ⟨"SUCCESS.ALL", []⟩) "" (Or.inr (Or.inl rfl)) (by decide)
  exact ⟨H.2.1, H.2.2.1, H.2.2.2 "tblChat_DES1" (Or.inl rfl) (by decide)⟩

theorem get_city_year_data_trace (selResp : Except String JsnResponse)
    (city year : String) :
    (GetOnlineJsonData.get_city_year_data selResp city year).2
      = [JSNDropService.get_city_data_cmd city year] := by
  cases selResp with
  | error e => rfl
  | ok resp =>
    by_cases hj : resp.JsnMsg = "SUCCESS.SELECT"
    · by_cases he : resp.Msg.isEmpty
      · simp [GetOnlineJsonData.get_city_year_data, hj, he]
      · by_cases hv : monthsValid resp.Msg <;>
          simp [GetOnlineJsonData.get_city_year_data, hj, he, hv]
    · simp [GetOnlineJsonData.get_city_year_data, hj]

/-- C5: on a -FETCH-JSON- event the handler first drops and recreates the
remote weatherData table and uploads the entire local CSV into it, and
only after that upload issues the SELECT for the chosen city and year (the
SELECT is the last command, after DROP, CREATE, STORE of the whole file);
when the upload step reports failure the handler returns None having
issued no commands at all, in particular no SELECT. -/
theorem c5_upload_precedes_select :
    (∀ city year rows selResp,
      (GetOnlineJsonData.accept "-FETCH-JSON-" city year (.ok rows) selResp).2
        = [JSNDropService.drop_table_cmd, JSNDropService.create_table_cmd,
           JSNDropService.store_data_cmd rows,
           JSNDropService.get_city_data_cmd city year]) ∧
    (∀ city year e selResp,
      GetOnlineJsonData.accept "-FETCH-JSON-" city year (.error e) selResp
        = (none, [])) := by
  constructor
  · intro city year rows selResp
    have htr := get_city_year_data_trace selResp city year
    cases hr : GetOnlineJsonData.get_city_year_data selResp city year with
    | mk fst snd =>
      rw [hr] at htr
      cases fst with
      | some temps =>
        by_cases hempty : temps.isEmpty <;>
          simp [GetOnlineJsonData.accept, GetOnlineJsonData.upload_csv_to_jsondrop,
                hr, htr, hempty]
      | none =>
        simp [GetOnlineJsonData.accept, GetOnlineJsonData.upload_csv_to_jsondrop,
              hr, htr]
  · intro city year e selResp
    rfl

/-- selectsUseWhere holds when every SELECT in a trace carries exactly the
given WHERE clause (commands with other verbs are unconstrained). -/
def selectsUseWhere (cs : List JsnCmd) (w : String) : Bool :=
  cs.all (fun c =>
    match c with
    | .select _ wc => wc == w
    | _ => true)

theorem get_comparison_data_trace (resp : Except String JsnResponse)
    (nz_city canadian_city year : String) :
    (MergedData.get_comparison_data resp nz_city canadian_city year).2
      = [JSNDropMergeService.get_comparison_data_cmd nz_city canadian_city year] := by
  cases resp with
  | error e => rfl
  | ok r =>
    by_cases hj : r.JsnMsg = "SUCCESS.SELECT"
    · by_cases he : r.Msg.isEmpty
      · simp [MergedData.get_comparison_data, hj, he]
      · by_cases hv : monthsValid r.Msg <;>
          simp [MergedData.get_comparison_data, hj, he, hv]
    · simp [MergedData.get_comparison_data, hj]

theorem create_merged_dataset_trace (nzResp : Except String JsnResponse)
    (canCsv : Except String (List Row)) :
    (MergedData.create_merged_dataset nzResp canCsv).2
      = [JSNDropMergeService.drop_merged_table_cmd,
         JSNDropMergeService.create_merged_table_cmd,
         JSNDropMergeService.get_nz_data_cmd] ∨
    ∃ v, (MergedData.create_merged_dataset nzResp canCsv).2
      = [JSNDropMergeService.drop_merged_table_cmd,
         JSNDropMergeService.create_merged_table_cmd,
         JSNDropMergeService.get_nz_data_cmd,
         JSNDropMergeService.store_merged_data_cmd v] := by
  cases nzResp with
  | error e => exact Or.inl rfl
  | ok resp =>
    by_cases hj : resp.JsnMsg = "SUCCESS.ALL"
    · cases canCsv with
      | error e => simp [MergedData.create_merged_dataset, hj]
      | ok df =>
        by_cases he : df.isEmpty
        · simp [MergedData.create_merged_dataset, hj, he]
        · refine Or.inr ⟨resp.Msg.map (tagCountry "New Zealand")
            ++ df.map (tagCountry "Canada"), ?_⟩
          simp [MergedData.create_merged_dataset, hj, he]
    · simp [MergedData.create_merged_dataset, hj]

theorem create_current_merged_trace (nzResp : Except String JsnResponse)
    (canCsv : Except String (List Row)) (nz_city canadian_city : String) :
    (CurrentWeatherMerge.create_current_merged_dataset nzResp canCsv
        nz_city canadian_city).2
      = [CurrentWeatherMergeService.drop_merged_table_cmd,
         CurrentWeatherMergeService.create_merged_table_cmd,
         CurrentWeatherMergeService.get_nz_data_cmd nz_city] ∨
    ∃ v, (CurrentWeatherMerge.create_current_merged_dataset nzResp canCsv
        nz_city canadian_city).2
      = [CurrentWeatherMergeService.drop_merged_table_cmd,
         CurrentWeatherMergeService.create_merged_table_cmd,
         CurrentWeatherMergeService.get_nz_data_cmd nz_city,
         CurrentWeatherMergeService.store_merged_data_cmd v] := by
  cases nzResp with
  | error e => exact Or.inl rfl
  | ok resp =>
    by_cases hj : resp.JsnMsg = "SUCCESS.SELECT"
    · cases hca : CurrentWeatherMerge.get_canadian_data canCsv canadian_city with
      | none => simp [CurrentWeatherMerge.create_current_merged_dataset, hj, hca]
      | some canadian_records =>
        by_cases he : canadian_records.isEmpty
        · simp [CurrentWeatherMerge.create_current_merged_dataset, hj, hca, he]
        · refine Or.inr ⟨resp.Msg.map (tagCountry "New Zealand") ++ canadian_records, ?_⟩
          simp [CurrentWeatherMerge.create_current_merged_dataset, hj, hca, he]
    · simp [CurrentWeatherMerge.create_current_merged_dataset, hj]

theorem mergedData_accept_trace (event nz_city canadian_city year : String)
    (nzResp : Except String JsnResponse) (canCsv : Except String (List Row))
    (compResp : Except String JsnResponse) :
    (MergedData.accept event nz_city canadian_city year nzResp canCsv compResp).2 = [] ∨
    (MergedData.accept event nz_city canadian_city year nzResp canCsv compResp).2
      = (MergedData.create_merged_dataset nzResp canCsv).2 ∨
    (MergedData.accept event nz_city canadian_city year nzResp canCsv compResp).2
      = (MergedData.create_merged_dataset nzResp canCsv).2
        ++ (MergedData.get_comparison_data compResp nz_city canadian_city year).2 := by
  by_cases hev : event = "-MERGE-DATA-"
  · cases hm : MergedData.create_merged_dataset nzResp canCsv with
    | mk b tr =>
      cases b with
      | false => simp [MergedData.accept, hev, hm]
      | true =>
        cases hg : MergedData.get_comparison_data compResp nz_city canadian_city year with
        | mk g1 g2 =>
          cases g1 with
          | none => simp [MergedData.accept, hev, hm, hg]
          | some p =>
            by_cases he : p.1.isEmpty || p.2.isEmpty <;>
              simp [MergedData.accept, hev, hm, hg, he]
  · simp [MergedData.accept, hev]

theorem currentMerge_accept_trace (event nz_city canadian_city : String)
    (nzResp : Except String JsnResponse) (canCsv : Except String (List Row)) :
    (CurrentWeatherMerge.accept event nz_city canadian_city nzResp canCsv).2 = [] ∨
    (CurrentWeatherMerge.accept event nz_city canadian_city nzResp canCsv).2
      = (CurrentWeatherMerge.create_current_merged_dataset nzResp canCsv
          nz_city canadian_city).2 := by
  by_cases hev : event = "-MERGE-CURRENT-"
  · cases hm : CurrentWeatherMerge.create_current_merged_dataset nzResp canCsv
        nz_city canadian_city with
    | mk m1 tr =>
      cases m1 with
      | none => simp [CurrentWeatherMerge.accept, hev, hm]
      | some t =>
        by_cases he : t.1.isEmpty || t.2.1.isEmpty || t.2.2.isEmpty <;>
          simp [CurrentWeatherMerge.accept, hev, hm, he]
  · simp [CurrentWeatherMerge.accept, hev]

theorem getOnline_accept_trace (event city year : String)
    (csvData : Except String (List Row)) (selResp : Except String JsnResponse) :
    (GetOnlineJsonData.accept event city year csvData selResp).2 = [] ∨
    ∃ v, (GetOnlineJsonData.accept event city year csvData selResp).2
      = [JSNDropService.drop_table_cmd, JSNDropService.create_table_cmd,
         JSNDropService.store_data_cmd v,
         JSNDropService.get_city_data_cmd city year] := by
  by_cases hev : event = "-FETCH-JSON-"
  · cases csvData with
    | error e => simp [GetOnlineJsonData.accept, hev,
        GetOnlineJsonData.upload_csv_to_jsondrop]
    | ok rows =>
      refine Or.inr ⟨rows, ?_⟩
      have htr := get_city_year_data_trace selResp city year
      cases hr : GetOnlineJsonData.get_city_year_data selResp city year with
      | mk fst snd =>
        rw [hr] at htr
        cases fst with
        | some temps =>
          by_cases hempty : temps.isEmpty <;>
            simp [GetOnlineJsonData.accept, hev,
                  GetOnlineJsonData.upload_csv_to_jsondrop, hr, htr, hempty]
        | none =>
          simp [GetOnlineJsonData.accept, hev,
                GetOnlineJsonData.upload_csv_to_jsondrop, hr, htr]
  · simp [GetOnlineJsonData.accept, hev]

/-- C6: every SELECT issued by the three data controllers carries a WHERE
predicate built by direct string interpolation of the user-chosen values
into a fixed template: city and year equality for the historical JSON
fetch, the two-city OR together with the year for the merged comparison,
and plain city equality for the current-weather merge. -/
theorem c6_select_where_templates :
    (∀ event city year csvData selResp,
      selectsUseWhere (GetOnlineJsonData.accept event city year csvData selResp).2
        ("city = \x27" ++ city ++ "\x27 AND year = " ++ year) = true) ∧
    (∀ event nz_city canadian_city year nzResp canCsv compResp,
      selectsUseWhere
        (MergedData.accept event nz_city canadian_city year nzResp canCsv compResp).2
        ("(city = \x27" ++ nz_city ++ "\x27 OR city = \x27" ++ canadian_city
          ++ "\x27) AND year = " ++ year) = true) ∧
    (∀ event nz_city canadian_city nzResp canCsv,
      selectsUseWhere
        (CurrentWeatherMerge.accept event nz_city canadian_city nzResp canCsv).2
        ("city = \x27" ++ nz_city ++ "\x27") = true) := by
  refine ⟨?_, ?_, ?_⟩
  · intro event city year csvData selResp
    rcases getOnline_accept_trace event city year csvData selResp with h | ⟨v, h⟩ <;>
      simp [h, selectsUseWhere, JSNDropService.drop_table_cmd,
            JSNDropService.create_table_cmd, JSNDropService.store_data_cmd,
            JSNDropService.get_city_data_cmd]
  · intro event nz_city canadian_city year nzResp canCsv compResp
    have hc := create_merged_dataset_trace nzResp canCsv
    have hg := get_comparison_data_trace compResp nz_city canadian_city year
    rcases mergedData_accept_trace event nz_city canadian_city year nzResp canCsv
        compResp with h | h | h
    · simp [h, selectsUseWhere]
    · rcases hc with hc | ⟨v, hc⟩ <;> rw [h, hc] <;>
        simp [selectsUseWhere, JSNDropMergeService.drop_merged_table_cmd,
              JSNDropMergeService.create_merged_table_cmd,
              JSNDropMergeService.get_nz_data_cmd,
              JSNDropMergeService.store_merged_data_cmd]
    · rcases hc with hc | ⟨v, hc⟩ <;> rw [h, hc, hg] <;>
        simp [selectsUseWhere, JSNDropMergeService.drop_merged_table_cmd,
              JSNDropMergeService.create_merged_table_cmd,
              JSNDropMergeService.get_nz_data_cmd,
              JSNDropMergeService.store_merged_data_cmd,
              JSNDropMergeService.get_comparison_data_cmd]
  · intro event nz_city canadian_city nzResp canCsv
    have hc := create_current_merged_trace nzResp canCsv nz_city canadian_city
    rcases currentMerge_accept_trace event nz_city canadian_city nzResp canCsv
        with h | h
    · simp [h, selectsUseWhere]
    · rcases hc with hc | ⟨v, hc⟩ <;> rw [h, hc] <;>
        simp [selectsUseWhere, CurrentWeatherMergeService.drop_merged_table_cmd,
              CurrentWeatherMergeService.create_merged_table_cmd,
              CurrentWeatherMergeService.get_nz_data_cmd,
              CurrentWeatherMergeService.store_merged_data_cmd]

/-- verbAllowed holds when a command uses one of the five record-store
verbs. -/
def verbAllowed (c : JsnCmd) : Bool :=
  ["CREATE", "DROP", "STORE", "SELECT", "ALL"].contains c.verb

theorem verbAllowed_all (c : JsnCmd) : verbAllowed c = true := by
  cases c <;> rfl

/-- C7: every command any modelled operation sends to the record store is
one of the five verbs CREATE, DROP, STORE, SELECT, ALL applied to a named
table: the command type only admits these five verbs, and every command
trace of the handlers and of register satisfies verbAllowed. -/
theorem c7_only_five_verbs :
    (∀ c : JsnCmd, verbAllowed c = true) ∧
    (∀ event city year csvData selResp,
      ((GetOnlineJsonData.accept event city year csvData selResp).2).all
        verbAllowed = true) ∧
    (∀ event nz_city canadian_city year nzResp canCsv compResp,
      ((MergedData.accept event nz_city canadian_city year nzResp canCsv
        compResp).2).all verbAllowed = true) ∧
    (∀ event nz_city canadian_city nzResp canCsv,
      ((CurrentWeatherMerge.accept event nz_city canadian_city nzResp
        canCsv).2).all verbAllowed = true) ∧
    (∀ event city apiResp,
      ((FetchWeatherButton.accept event city apiResp).2).all verbAllowed = true) ∧
    (∀ event messageRaw screen current_user timeNow histResp display,
      ((ChatButton.accept event messageRaw screen current_user timeNow histResp
        display).2.1).all verbAllowed = true) ∧
    (∀ tblUser user_id password,
      ((UserManagement.register tblUser user_id password).2.2).all
        verbAllowed = true) := by
  refine ⟨verbAllowed_all, ?_, ?_, ?_, ?_, ?_, ?_⟩ <;>
    intros <;>
    exact List.all_eq_true.mpr (fun c _ => verbAllowed_all c)

/-- C8: for every successful OpenWeather response (cod equal to the string
200), get_current_weather returns three lists of equal length, each of
length at most 8, taken in order from the first 8 forecast entries, and at
every index the stored record's temperature and timestamp equal the
corresponding entries of the temperature and time lists. -/
theorem c8_forecast_lists_aligned (a : ApiResponse) (city : String)
    (fc : List Row) (temps : List Int) (times : List String)
    (hcod : a.cod = "200")
    (h : FetchWeatherButton.get_current_weather (.ok a) city
          = some (fc, temps, times)) :
    fc.length = temps.length ∧ temps.length = times.length ∧
    temps.length ≤ 8 ∧
    temps = (a.entries.take 8).map (fun e => e.main_temp) ∧
    times = (a.entries.take 8).map (fun e => e.dt_txt) ∧
    ∀ i (h1 : i < fc.length) (h2 : i < temps.length) (h3 : i < times.length),
      (fc.get ⟨i, h1⟩).temperature = temps.get ⟨i, h2⟩ ∧
      (fc.get ⟨i, h1⟩).timestamp = times.get ⟨i, h3⟩ := by
  simp only [FetchWeatherButton.get_current_weather, hcod, beq_self_eq_true,
    if_true, Option.some.injEq, Prod.mk.injEq] at h
  obtain ⟨hfc, htemps, htimes⟩ := h
  subst hfc htemps htimes
  refine ⟨by simp, by simp, ?_, rfl, rfl, ?_⟩
  · simp
  · intro i h1 h2 h3
    constructor <;> simp [List.get_eq_getElem, List.getElem_map]

/-- c8api is a concrete two-entry OpenWeather response for the C8 witness. -/
def c8api : ApiResponse :=
  { cod := "200",
    entries := [{ main_temp := 18, dt_txt := "2024-11-10 00:00:00" },
                { main_temp := 16, dt_txt := "2024-11-10 03:00:00" }] }

/-- c8rows is the forecast row list built from c8api for Auckland. -/
def c8rows : List Row :=
  [{ city := "Auckland", temperature := 18, timestamp := "2024-11-10 00:00:00" },
   { city := "Auckland", temperature := 16, timestamp := "2024-11-10 03:00:00" }]

theorem c8_forecast_lists_aligned_witness :
    c8rows.length = [(18:Int), 16].length ∧
    [(18:Int), 16].length = ["2024-11-10 00:00:00", "2024-11-10 03:00:00"].length ∧
    [(18:Int), 16].length ≤ 8 ∧
    (c8rows.get ⟨0, by decide⟩).temperature = [(18:Int), 16].get ⟨0, by decide⟩ := by
  have H := c8_forecast_lists_aligned c8api "Auckland" c8rows [18, 16]
    ["2024-11-10 00:00:00", "2024-11-10 03:00:00"] rfl (by decide)
  exact ⟨H.1, H.2.1, H.2.2.1,
    (H.2.2.2.2.2 0 (by decide) (by decide) (by decide)).1⟩

theorem filter_isEmpty_any_false (l : List Row) (p : Row → Bool)
    (h : (l.filter p).isEmpty = true) : l.any p = false := by
  rw [List.isEmpty_iff] at h
  rw [List.any_eq_false]
  intro x hx
  exact fun hpx => List.filter_eq_nil_iff.mp h x hx hpx

/-- C9: register stores a new user row with Status Registered and returns
Registration Success exactly when the preceding lookup of the PersonID
reports DATA_ERROR (no row with that PersonID); otherwise it returns
User Already Exists and stores nothing, leaving the user table unchanged. -/
theorem c9_register_iff_absent (tblUser : List Row) (user_id password : String) :
    ((tblUser.filter (fun r => r.PersonID == user_id)).isEmpty = true →
      (UserManagement.register tblUser user_id password).2.1
        = "Registration Success" ∧
      (UserManagement.register tblUser user_id password).1
        = tblUser ++ [{ PersonID := user_id, Password := password,
                        Status := "Registered" }]) ∧
    ((tblUser.filter (fun r => r.PersonID == user_id)).isEmpty = false →
      (UserManagement.register tblUser user_id password).2.1
        = "User Already Exists" ∧
      (UserManagement.register tblUser user_id password).1 = tblUser) ∧
    ((UserManagement.register tblUser user_id password).2.1
        = "Registration Success"
      ↔ (tblUser.filter (fun r => r.PersonID == user_id)).isEmpty = true) := by
  by_cases hemp : (tblUser.filter (fun r => r.PersonID == user_id)).isEmpty
  · have hst : UserManagement.jsn_select_status tblUser user_id
        = "DATA_ERROR : NO DATA FOUND" := by
      simp [UserManagement.jsn_select_status, hemp]
    have hde : UserManagement.hasDataError
        (UserManagement.jsn_select_status tblUser user_id) = true := by
      rw [hst]; decide
    have hany : tblUser.any (fun r => r.PersonID == user_id) = false :=
      filter_isEmpty_any_false tblUser _ hemp
    have hreg : UserManagement.register tblUser user_id password
        = (tblUser ++ [{ PersonID := user_id, Password := password,
                         Status := "Registered" }],
           "Registration Success",
           [JsnCmd.select "tblUser" ("PersonID = \x27" ++ user_id ++ "\x27"),
            .store "tblUser" [{ PersonID := user_id, Password := password,
                                Status := "Registered" }]]) := by
      simp [UserManagement.register, hde, UserManagement.jsn_store_user, hany]
    refine ⟨fun _ => ⟨by rw [hreg], by rw [hreg]⟩, fun hc => ?_, ?_⟩
    · rw [hemp] at hc; exact absurd hc (by decide)
    · rw [hreg]
      exact ⟨fun _ => hemp, fun _ => rfl⟩
  · have hemp2 : (tblUser.filter (fun r => r.PersonID == user_id)).isEmpty = false :=
      Bool.not_eq_true _ ▸ (by simpa using hemp)
    have hst : UserManagement.jsn_select_status tblUser user_id
        = "SUCCESS.SELECT" := by
      simp [UserManagement.jsn_select_status, hemp2]
    have hde : UserManagement.hasDataError
        (UserManagement.jsn_select_status tblUser user_id) = false := by
      rw [hst]; decide
    have hreg : UserManagement.register tblUser user_id password
        = (tblUser, "User Already Exists",
           [JsnCmd.select "tblUser" ("PersonID = \x27" ++ user_id ++ "\x27")]) := by
      simp [UserManagement.register, hde]
    refine ⟨fun hc => ?_, fun _ => ⟨by rw [hreg], by rw [hreg]⟩, ?_⟩
    · rw [hemp2] at hc; exact absurd hc (by decide)
    · rw [hreg]
      simp [hemp2]

/-- c9bob is an existing user row for the C9 witness. -/
def c9bob : Row := { PersonID := "bob", Password := "pw", Status := "Registered" }

theorem c9_register_iff_absent_witness :
    (UserManagement.register [] "bob" "pw").2.1 = "Registration Success" ∧
    (UserManagement.register [] "bob" "pw").1 = [c9bob] ∧
    (UserManagement.register [c9bob] "bob" "pw2").2.1 = "User Already Exists" ∧
    (UserManagement.register [c9bob] "bob" "pw2").1 = [c9bob] := by
  have H1 := c9_register_iff_absent [] "bob" "pw"
  have H2 := c9_register_iff_absent [c9bob] "bob" "pw2"
  exact ⟨(H1.1 (by decide)).1, (H1.1 (by decide)).2,
         (H2.2.1 (by decide)).1, (H2.2.1 (by decide)).2⟩

/-- C10: on a Send event whose typed message is empty or whitespace after
stripping, the chat handler returns keep_going true immediately, issues no
command to the record store (so nothing is stored), and leaves the chat
display unchanged. -/
theorem c10_blank_message_noop (msgRaw : String) (screen : Option String)
    (current_user : String) (timeNow : Int)
    (histResp : Except String JsnResponse) (display : String)
    (h : pyStrip msgRaw = "") :
    ChatButton.accept "Send" msgRaw screen current_user timeNow histResp display
      = (true, [], display) := by
  have hb : (pyStrip msgRaw == "") = true := by rw [h]; rfl
  simp [ChatButton.accept, hb]

theorem c10_blank_message_noop_witness :
    ChatButton.accept "Send" "   " (some "DES1") "bob" 7
      (.ok ⟨"SUCCESS.ALL", []⟩) "old display" = (true, [], "old display") :=
  c10_blank_message_noop "   " (some "DES1") "bob" 7
    (.ok ⟨"SUCCESS.ALL", []⟩) "old display" (by decide)
